import Mathlib

/-!
Verification of the nexus-deploy-token-and-swap-router repository.

The definitions below are a shallow embedding of the two source files
`src/bot.ts` (the orchestrator together with the in-memory Solidity
contracts `TestERC20.sol` and `SimpleSwap.sol`) and `src/deploy.ts`
(whose `compileContract` has the same error-handling shape).
Solidity `uint256` values are modelled as `Nat`; the inputs exercised by
the repository stay far below `2 ^ 256`, and Solidity 0.8 reverts on
overflow, so `Nat` arithmetic agrees with the source on every run that
does not revert.  Reverts and `require` failures are modelled with
`Except`.
-/

/-- Errors raised by the embedded contracts (the `require` messages of
`SimpleSwap.sol` and `TestERC20.sol` in src/bot.ts). -/
inductive EvmError where
  | invalidToken
  | notEnoughLiquidity
  | amountNotPositive
  | transferFromZero
  | transferToZero
  | transferExceedsBalance
  | transferExceedsAllowance
deriving DecidableEq, Repr

/-- State of one `TestERC20` contract (src/bot.ts lines 20-77): the
`balanceOf` and `allowance` mappings, with addresses as naturals. -/
structure TokenState where
  balanceOf : Nat → Nat
  allowance : Nat → Nat → Nat

/-- `TestERC20._transfer` (src/bot.ts lines 65-76): checks the zero
addresses and the sender balance, then moves `amount`. -/
def transferInternal (t : TokenState) (sender recipient amount : Nat) :
    Except EvmError TokenState :=
  if sender = 0 then Except.error EvmError.transferFromZero
  else if recipient = 0 then Except.error EvmError.transferToZero
  else
    if t.balanceOf sender < amount then Except.error EvmError.transferExceedsBalance
    else
      Except.ok { t with balanceOf :=
        fun a =>
          if a = recipient then
            (if recipient = sender then t.balanceOf sender - amount else t.balanceOf recipient)
              + amount
          else if a = sender then t.balanceOf sender - amount
          else t.balanceOf a }

/-- `TestERC20.transferFrom` (src/bot.ts lines 51-58): checks the
allowance of `msgSender` over `sender`, performs `_transfer`, then
decrements the allowance. -/
def transferFrom (t : TokenState) (msgSender sender recipient amount : Nat) :
    Except EvmError TokenState :=
  if t.allowance sender msgSender < amount then
    Except.error EvmError.transferExceedsAllowance
  else
    match transferInternal t sender recipient amount with
    | Except.error e => Except.error e
    | Except.ok t2 =>
        Except.ok { t2 with allowance :=
          fun o s =>
            if o = sender ∧ s = msgSender then t.allowance sender msgSender - amount
            else t2.allowance o s }

/-- `TestERC20.transfer` (src/bot.ts lines 60-63): `_transfer` from the
caller. -/
def transferCall (t : TokenState) (msgSender recipient amount : Nat) :
    Except EvmError TokenState :=
  transferInternal t msgSender recipient amount

/-- The whole `SimpleSwap` system (src/bot.ts lines 88-124): the pool
contract's immutable token addresses, its own address, the states of the
two token contracts, and the stored reserves. -/
structure SwapSystem where
  tokenA : Nat
  tokenB : Nat
  poolAddr : Nat
  tokA : TokenState
  tokB : TokenState
  reserveA : Nat
  reserveB : Nat

/-- The arithmetic core of `SimpleSwap.getAmountOut`
(src/bot.ts lines 111-112):
`amountInWithFee = _amountIn * 997 / 1000` and
`(amountInWithFee * reserveOut) / (reserveIn + amountInWithFee)`,
with Solidity's truncating `uint256` division, which on these
non-negative operands is floor division, i.e. `Nat` division. -/
def getAmountOutFormula (amountIn reserveIn reserveOut : Nat) : Nat :=
  amountIn * 997 / 1000 * reserveOut / (reserveIn + amountIn * 997 / 1000)

/-- Modelled from the spec (§4.1): the quoted output as the spec words it,
`floor(floor(amountIn*997/1000) * reserveOut / (reserveIn + floor(amountIn*997/1000)))`. -/
def quoteSpec (amountIn reserveIn reserveOut : Nat) : Nat :=
  amountIn * 997 / 1000 * reserveOut / (reserveIn + amountIn * 997 / 1000)

/-- `SimpleSwap.getAmountOut` (src/bot.ts lines 107-113): validates the
token address, selects the oriented reserves, requires liquidity, and
returns the formula value. -/
def getAmountOut (s : SwapSystem) (amountIn tokenIn : Nat) : Except EvmError Nat :=
  if tokenIn = s.tokenA ∨ tokenIn = s.tokenB then
    if (if tokenIn = s.tokenA then s.reserveA else s.reserveB) = 0 ∨
        (if tokenIn = s.tokenA then s.reserveB else s.reserveA) = 0 then
      Except.error EvmError.notEnoughLiquidity
    else
      Except.ok (getAmountOutFormula amountIn
        (if tokenIn = s.tokenA then s.reserveA else s.reserveB)
        (if tokenIn = s.tokenA then s.reserveB else s.reserveA))
  else Except.error EvmError.invalidToken

/-- `SimpleSwap.addLiquidity` (src/bot.ts lines 100-105): pulls both
amounts from the caller via `transferFrom` (token-side `msg.sender` is
the pool) and adds them to the stored reserves. -/
def addLiquidity (s : SwapSystem) (msgSender amountA amountB : Nat) :
    Except EvmError SwapSystem :=
  match transferFrom s.tokA s.poolAddr msgSender s.poolAddr amountA with
  | Except.error e => Except.error e
  | Except.ok tokA2 =>
    match transferFrom s.tokB s.poolAddr msgSender s.poolAddr amountB with
    | Except.error e => Except.error e
    | Except.ok tokB2 =>
        Except.ok { s with tokA := tokA2, tokB := tokB2,
                           reserveA := s.reserveA + amountA,
                           reserveB := s.reserveB + amountB }

/-- `SimpleSwap.swap` (src/bot.ts lines 115-123): requires a positive
input, quotes the output, pulls `amountIn` of the input token from the
caller, pays out `amountOut` of the other token, and finally re-reads
both of the pool's token balances into the stored reserves. -/
def swap (s : SwapSystem) (msgSender amountIn tokenIn : Nat) :
    Except EvmError SwapSystem :=
  if amountIn = 0 then Except.error EvmError.amountNotPositive
  else
    match getAmountOut s amountIn tokenIn with
    | Except.error e => Except.error e
    | Except.ok amountOut =>
      if tokenIn = s.tokenA then
        match transferFrom s.tokA s.poolAddr msgSender s.poolAddr amountIn with
        | Except.error e => Except.error e
        | Except.ok tokA2 =>
          match transferCall s.tokB s.poolAddr msgSender amountOut with
          | Except.error e => Except.error e
          | Except.ok tokB2 =>
              Except.ok { s with tokA := tokA2, tokB := tokB2,
                                 reserveA := tokA2.balanceOf s.poolAddr,
                                 reserveB := tokB2.balanceOf s.poolAddr }
      else
        match transferFrom s.tokB s.poolAddr msgSender s.poolAddr amountIn with
        | Except.error e => Except.error e
        | Except.ok tokB2 =>
          match transferCall s.tokA s.poolAddr msgSender amountOut with
          | Except.error e => Except.error e
          | Except.ok tokA2 =>
              Except.ok { s with tokA := tokA2, tokB := tokB2,
                                 reserveA := tokA2.balanceOf s.poolAddr,
                                 reserveB := tokB2.balanceOf s.poolAddr }

lemma feeAmount_le (amountIn : Nat) : amountIn * 997 / 1000 ≤ amountIn := by
  have h : amountIn * 997 ≤ amountIn * 1000 := by omega
  calc amountIn * 997 / 1000 ≤ amountIn * 1000 / 1000 := Nat.div_le_div_right h
    _ = amountIn := Nat.mul_div_cancel _ (by omega)

lemma getAmountOutFormula_lt (amountIn reserveIn reserveOut : Nat)
    (hi : 0 < reserveIn) (ho : 0 < reserveOut) :
    getAmountOutFormula amountIn reserveIn reserveOut < reserveOut := by
  unfold getAmountOutFormula
  rw [Nat.div_lt_iff_lt_mul (by omega)]
  have hpos : 0 < reserveIn * reserveOut := Nat.mul_pos hi ho
  calc amountIn * 997 / 1000 * reserveOut
      < amountIn * 997 / 1000 * reserveOut + reserveIn * reserveOut := by omega
    _ = reserveOut * (reserveIn + amountIn * 997 / 1000) := by ring

/-- Claim C1: for positive `amountIn`, `reserveIn`, `reserveOut`, the
output quoted by the pool's `getAmountOut` satisfies the fee-adjusted
constant-product invariant exactly in integer arithmetic:
`(reserveIn + amountIn) * (reserveOut - amountOut) >= reserveIn * reserveOut`. -/
theorem C1_constant_product (amountIn reserveIn reserveOut : Nat)
    (ha : 0 < amountIn) (hi : 0 < reserveIn) (ho : 0 < reserveOut) :
    reserveIn * reserveOut ≤
      (reserveIn + amountIn) *
        (reserveOut - getAmountOutFormula amountIn reserveIn reserveOut) := by
  have hfee : amountIn * 997 / 1000 ≤ amountIn := feeAmount_le amountIn
  have hlt := getAmountOutFormula_lt amountIn reserveIn reserveOut hi ho
  have hkey : getAmountOutFormula amountIn reserveIn reserveOut *
      (reserveIn + amountIn * 997 / 1000) ≤ amountIn * 997 / 1000 * reserveOut := by
    unfold getAmountOutFormula
    exact Nat.div_mul_le_self _ _
  zify [Nat.le_of_lt hlt]
  have hkeyZ : (getAmountOutFormula amountIn reserveIn reserveOut : ℤ) *
      ((reserveIn : ℤ) + (amountIn * 997 / 1000 : Nat)) ≤
      ((amountIn * 997 / 1000 : Nat) : ℤ) * reserveOut := by exact_mod_cast hkey
  have hfeeZ : ((amountIn * 997 / 1000 : Nat) : ℤ) ≤ (amountIn : ℤ) := by
    exact_mod_cast hfee
  have hltZ : ((getAmountOutFormula amountIn reserveIn reserveOut : Nat) : ℤ) <
      (reserveOut : ℤ) := by exact_mod_cast hlt
  nlinarith [hkeyZ, hfeeZ, hltZ,
    mul_le_mul_of_nonneg_right hfeeZ
      (show (0 : ℤ) ≤ (reserveOut : ℤ) -
        (getAmountOutFormula amountIn reserveIn reserveOut : ℤ) by linarith)]

/-- Witness for C1 at `(amountIn, reserveIn, reserveOut) = (100, 1000, 1000)`. -/
theorem C1_witness :
    1000 * 1000 ≤ (1000 + 100) * (1000 - getAmountOutFormula 100 1000 1000) :=
  C1_constant_product 100 1000 1000 (by decide) (by decide) (by decide)

/-- Claim C9: for positive inputs the quoted output is strictly below the
output reserve, so one swap can never drain it and both post-swap
reserves stay strictly positive. -/
theorem C9_output_bounded (amountIn reserveIn reserveOut : Nat)
    (ha : 0 < amountIn) (hi : 0 < reserveIn) (ho : 0 < reserveOut) :
    getAmountOutFormula amountIn reserveIn reserveOut < reserveOut ∧
    0 < reserveOut - getAmountOutFormula amountIn reserveIn reserveOut ∧
    0 < reserveIn + amountIn := by
  have h := getAmountOutFormula_lt amountIn reserveIn reserveOut hi ho
  exact ⟨h, by omega, by omega⟩

/-- Witness for C9 at `(amountIn, reserveIn, reserveOut) = (100, 1000, 1000)`. -/
theorem C9_witness :
    getAmountOutFormula 100 1000 1000 < 1000 ∧
    0 < 1000 - getAmountOutFormula 100 1000 1000 ∧
    0 < 1000 + 100 :=
  C9_output_bounded 100 1000 1000 (by decide) (by decide) (by decide)

/-- Claim C2: on any pool with positive reserves, `getAmountOut` for the
token-A direction returns exactly the spec's floor-division formula, and
`quote(100, 1000, 1000) = 90`. -/
theorem C2_quote_formula (s : SwapSystem) (amountIn : Nat)
    (ha : 0 < amountIn) (hA : 0 < s.reserveA) (hB : 0 < s.reserveB) :
    getAmountOut s amountIn s.tokenA =
      Except.ok (quoteSpec amountIn s.reserveA s.reserveB) ∧
    quoteSpec 100 1000 1000 = 90 := by
  constructor
  · unfold getAmountOut
    simp only [eq_self_iff_true, true_or, if_true]
    rw [if_neg (by omega)]
    rfl
  · rfl

/-- A concrete funded pool used as evaluation input: token addresses 10
and 11, pool address 2, user address 1, reserves (1000, 1000) matching
the pool's balances, user holding 9000 of each token with a 5000
allowance of token A granted to the pool. -/
def demoPool : SwapSystem :=
  { tokenA := 10
    tokenB := 11
    poolAddr := 2
    tokA := { balanceOf := fun a => if a = 2 then 1000 else if a = 1 then 9000 else 0
              allowance := fun o s => if o = 1 ∧ s = 2 then 5000 else 0 }
    tokB := { balanceOf := fun a => if a = 2 then 1000 else if a = 1 then 9000 else 0
              allowance := fun _ _ => 0 }
    reserveA := 1000
    reserveB := 1000 }

/-- A concrete freshly-deployed system: same addresses as `demoPool`, no
liquidity yet (reserves 0 and empty pool balances), user 1 funded with
1000000 of each token and the pool approved for 1000000 of each. -/
def demoFresh : SwapSystem :=
  { tokenA := 10
    tokenB := 11
    poolAddr := 2
    tokA := { balanceOf := fun a => if a = 1 then 1000000 else 0
              allowance := fun o s => if o = 1 ∧ s = 2 then 1000000 else 0 }
    tokB := { balanceOf := fun a => if a = 1 then 1000000 else 0
              allowance := fun o s => if o = 1 ∧ s = 2 then 1000000 else 0 }
    reserveA := 0
    reserveB := 0 }

/-- Witness for C2 on `demoPool` with `amountIn = 100`. -/
theorem C2_witness :
    getAmountOut demoPool 100 10 = Except.ok (quoteSpec 100 1000 1000) ∧
    quoteSpec 100 1000 1000 = 90 :=
  C2_quote_formula demoPool 100 (by decide) (by decide) (by decide)

/-- Counterexample to claim C4 as stated: `getAmountOut` with
`amountIn = 0` on a pool with positive reserves does not fail with a
validation error; it returns the value 0. -/
theorem C4_counterexample : getAmountOut demoPool 0 10 = Except.ok 0 := by rfl

/-- Claim C4 (amended): `getAmountOut` fails with `InsufficientLiquidity`
("Not enough liquidity") whenever either reserve is zero; with
`amountIn = 0` and positive reserves it does not fail but returns 0; the
`amountIn > 0` validation ("Amount must be positive") is enforced by
`swap`, not by `getAmountOut`. -/
theorem C4_preconditions (s : SwapSystem) (amountIn u : Nat) :
    ((s.reserveA = 0 ∨ s.reserveB = 0) →
        getAmountOut s amountIn s.tokenA = Except.error EvmError.notEnoughLiquidity) ∧
    (0 < s.reserveA → 0 < s.reserveB →
        getAmountOut s 0 s.tokenA = Except.ok 0) ∧
    swap s u 0 s.tokenA = Except.error EvmError.amountNotPositive := by
  refine ⟨?_, ?_, ?_⟩
  · intro hzero
    unfold getAmountOut
    simp only [eq_self_iff_true, true_or, if_true]
    rw [if_pos (by omega)]
  · intro hA hB
    unfold getAmountOut
    simp only [eq_self_iff_true, true_or, if_true]
    rw [if_neg (by omega)]
    simp [getAmountOutFormula]
  · unfold swap
    rw [if_pos rfl]

/-- Witness for C4 (amended): evaluated on `demoFresh` (zero reserves)
and `demoPool` (positive reserves). -/
theorem C4_witness :
    getAmountOut demoFresh 5 10 = Except.error EvmError.notEnoughLiquidity ∧
    getAmountOut demoPool 0 10 = Except.ok 0 ∧
    swap demoPool 1 0 10 = Except.error EvmError.amountNotPositive :=
  ⟨(C4_preconditions demoFresh 5 1).1 (Or.inl rfl),
   (C4_preconditions demoPool 5 1).2.1 (by decide) (by decide),
   (C4_preconditions demoPool 5 1).2.2⟩

lemma transferInternal_balance (t t2 : TokenState) (sender recipient amount : Nat)
    (h : transferInternal t sender recipient amount = Except.ok t2)
    (hne : sender ≠ recipient) :
    t2.balanceOf recipient = t.balanceOf recipient + amount ∧
    (∀ a, a ≠ sender → a ≠ recipient → t2.balanceOf a = t.balanceOf a) := by
  unfold transferInternal at h
  split at h
  · exact Except.noConfusion h
  · split at h
    · exact Except.noConfusion h
    · split at h
      · exact Except.noConfusion h
      · injection h with h
        subst h
        constructor
        · simp [Ne.symm hne]
        · intro a ha hr
          simp [ha, hr]


lemma transferFrom_balance (t t2 : TokenState) (msgSender sender recipient amount : Nat)
    (h : transferFrom t msgSender sender recipient amount = Except.ok t2)
    (hne : sender ≠ recipient) :
    t2.balanceOf recipient = t.balanceOf recipient + amount ∧
    (∀ a, a ≠ sender → a ≠ recipient → t2.balanceOf a = t.balanceOf a) := by
  unfold transferFrom at h
  split at h
  · exact Except.noConfusion h
  · split at h
    · exact Except.noConfusion h
    · rename_i t3 heq
      injection h with h
      subst h
      exact transferInternal_balance t t3 sender recipient amount heq hne

/-- Claim C6: a successful `addLiquidity(a, b)` increases the stored
reserves by exactly `(a, b)`, with no fee and no pricing adjustment. -/
theorem C6_addLiquidity_exact (s s2 : SwapSystem) (u a b : Nat)
    (h : addLiquidity s u a b = Except.ok s2) :
    s2.reserveA = s.reserveA + a ∧ s2.reserveB = s.reserveB + b := by
  unfold addLiquidity at h
  split at h
  · exact Except.noConfusion h
  · split at h
    · exact Except.noConfusion h
    · injection h with h
      subst h
      exact ⟨rfl, rfl⟩

/-- The system obtained by running `addLiquidity` on `demoFresh` for the
amounts (1000, 1000) from user 1. -/
def demoAfterAdd : SwapSystem :=
  match addLiquidity demoFresh 1 1000 1000 with
  | Except.ok s => s
  | Except.error _ => demoFresh

/-- Witness for C6: `addLiquidity demoFresh 1 1000 1000` succeeds and the
reserves grow from (0, 0) to exactly (0 + 1000, 0 + 1000). -/
theorem C6_witness :
    demoAfterAdd.reserveA = demoFresh.reserveA + 1000 ∧
    demoAfterAdd.reserveB = demoFresh.reserveB + 1000 :=
  C6_addLiquidity_exact demoFresh demoAfterAdd 1 1000 1000 rfl

/-- Claim C10: after every successful `swap` the stored reserves equal
the pool's actual token balances (swap re-reads both balances as its
final step); and, assuming the caller is not the pool itself (so the
token transfers move exactly the requested amounts) and consistency held
before, `addLiquidity` preserves the consistency. -/
theorem C10_reserves_track_balances (s : SwapSystem)
    (u amountIn tokenIn amountA amountB : Nat) :
    (∀ s2, swap s u amountIn tokenIn = Except.ok s2 →
        s2.reserveA = s2.tokA.balanceOf s2.poolAddr ∧
        s2.reserveB = s2.tokB.balanceOf s2.poolAddr) ∧
    (u ≠ s.poolAddr →
      s.reserveA = s.tokA.balanceOf s.poolAddr →
      s.reserveB = s.tokB.balanceOf s.poolAddr →
      ∀ s2, addLiquidity s u amountA amountB = Except.ok s2 →
        s2.reserveA = s2.tokA.balanceOf s2.poolAddr ∧
        s2.reserveB = s2.tokB.balanceOf s2.poolAddr) := by
  constructor
  · intro s2 h
    unfold swap at h
    split at h
    · exact Except.noConfusion h
    · split at h
      · exact Except.noConfusion h
      · split at h
        · split at h
          · exact Except.noConfusion h
          · split at h
            · exact Except.noConfusion h
            · injection h with h
              subst h
              exact ⟨rfl, rfl⟩
        · split at h
          · exact Except.noConfusion h
          · split at h
            · exact Except.noConfusion h
            · injection h with h
              subst h
              exact ⟨rfl, rfl⟩
  · intro hne hA hB s2 h
    unfold addLiquidity at h
    split at h
    · exact Except.noConfusion h
    · rename_i tokA2 heqA
      split at h
      · exact Except.noConfusion h
      · rename_i tokB2 heqB
        injection h with h
        subst h
        have hA2 := transferFrom_balance s.tokA tokA2 s.poolAddr u s.poolAddr amountA heqA hne
        have hB2 := transferFrom_balance s.tokB tokB2 s.poolAddr u s.poolAddr amountB heqB hne
        constructor
        · show s.reserveA + amountA = tokA2.balanceOf s.poolAddr
          omega
        · show s.reserveB + amountB = tokB2.balanceOf s.poolAddr
          omega

/-- The system obtained by running `swap` on `demoPool` for 100 units of
token A from user 1. -/
def demoSwapped : SwapSystem :=
  match swap demoPool 1 100 10 with
  | Except.ok s => s
  | Except.error _ => demoPool

/-- Witness for C10: evaluated on the successful swap
`swap demoPool 1 100 10` and the successful call
`addLiquidity demoFresh 1 1000 1000`. -/
theorem C10_witness :
    (demoSwapped.reserveA = demoSwapped.tokA.balanceOf demoSwapped.poolAddr ∧
     demoSwapped.reserveB = demoSwapped.tokB.balanceOf demoSwapped.poolAddr) ∧
    (demoAfterAdd.reserveA = demoAfterAdd.tokA.balanceOf demoAfterAdd.poolAddr ∧
     demoAfterAdd.reserveB = demoAfterAdd.tokB.balanceOf demoAfterAdd.poolAddr) :=
  ⟨(C10_reserves_track_balances demoPool 1 100 10 1000 1000).1 demoSwapped rfl,
   (C10_reserves_track_balances demoFresh 1 100 10 1000 1000).2
     (by decide) rfl rfl demoAfterAdd rfl⟩

/-- The swap loop of `main` (src/bot.ts lines 212-231), parametrised by
an oracle `ok` telling whether the swap transaction of iteration `i`
succeeds.  Iterating `i = start, start+1, ...` for `fuel` more
iterations, it returns the pair (successful iterations, attempted
iterations): a successful iteration is recorded and the loop continues;
a failed iteration is caught and the loop breaks immediately. -/
def runSwapsFrom (ok : Nat → Bool) : Nat → Nat → List Nat × List Nat
  | _, 0 => ([], [])
  | i, fuel + 1 =>
    if ok i then
      (i :: (runSwapsFrom ok (i + 1) fuel).1, i :: (runSwapsFrom ok (i + 1) fuel).2)
    else ([], [i])

/-- The swap loop as run by `main`: `for (let i = 1; i <= count; i++)`,
with `count = 10` in the source. -/
def runSwaps (ok : Nat → Bool) (count : Nat) : List Nat × List Nat :=
  runSwapsFrom ok 1 count

lemma runSwapsFrom_halts (ok : Nat → Bool) :
    ∀ (fuel start i : Nat), start ≤ i → i < start + fuel →
      (∀ j, start ≤ j → j < i → ok j = true) → ok i = false →
      runSwapsFrom ok start fuel =
        (List.range' start (i - start), List.range' start (i - start + 1)) := by
  intro fuel
  induction fuel with
  | zero => intro start i h1 h2 _ _; omega
  | succ n ih =>
    intro start i h1 h2 hok hfail
    by_cases hsi : i = start
    · subst hsi
      simp [runSwapsFrom, hfail, List.range']
    · have hstart : ok start = true := hok start le_rfl (by omega)
      have hrec := ih (start + 1) i (by omega) (by omega)
        (fun j hj1 hj2 => hok j (by omega) hj2) hfail
      simp only [runSwapsFrom, hstart, if_true]
      rw [hrec]
      have h3 : i - start = i - (start + 1) + 1 := by omega
      rw [h3]
      simp [List.range'_succ]

/-- Claim C3: in the swap loop, if iterations `1..i-1` succeed and
iteration `i` (with `1 <= i <= count`) fails, the loop returns exactly
the `i-1` successful records, attempts exactly iterations `1..i`, and
never attempts any iteration past `i`. -/
theorem C3_fail_fast (ok : Nat → Bool) (count i : Nat)
    (h1 : 1 ≤ i) (h2 : i ≤ count)
    (hok : ∀ j, j < i → 1 ≤ j → ok j = true) (hfail : ok i = false) :
    (runSwaps ok count).1 = List.range' 1 (i - 1) ∧
    (runSwaps ok count).1.length = i - 1 ∧
    (runSwaps ok count).2 = List.range' 1 i ∧
    ∀ j, j ∈ (runSwaps ok count).2 → j ≤ i := by
  have h := runSwapsFrom_halts ok count 1 i h1 (by omega)
    (fun j hj1 hj2 => hok j hj2 hj1) hfail
  unfold runSwaps
  rw [h]
  have h4 : i - 1 + 1 = i := by omega
  refine ⟨rfl, by simp, ?_, ?_⟩
  · show List.range' 1 (i - 1 + 1) = List.range' 1 i
    rw [h4]
  · intro j hj
    have hmem := List.mem_range'_1.mp hj
    omega

/-- A concrete failure oracle: swap #4 fails, every other swap succeeds. -/
def demoOk : Nat → Bool := fun j => !(j == 4)

/-- Witness for C3: with `count = 10` and swap #4 failing, exactly the 3
records `[1, 2, 3]` are produced, iterations `[1, 2, 3, 4]` are
attempted, and no iteration past #4 is ever attempted. -/
theorem C3_witness :
    (runSwaps demoOk 10).1 = List.range' 1 3 ∧
    (runSwaps demoOk 10).1.length = 3 ∧
    (runSwaps demoOk 10).2 = List.range' 1 4 ∧
    ∀ j, j ∈ (runSwaps demoOk 10).2 → j ≤ 4 :=
  C3_fail_fast demoOk 10 4 (by decide) (by decide) (by decide) (by decide)

/-- Severity of a compiler diagnostic. -/
inductive Severity where
  | error
  | warning
deriving DecidableEq, Repr

/-- One entry of the `output.errors` array returned by the compiler. -/
structure Diagnostic where
  severity : Severity
  formattedMessage : String
deriving DecidableEq, Repr

/-- A compiled artifact `{abi, bytecode}` (src/bot.ts line 140). -/
structure Artifact where
  abi : Nat
  bytecode : Nat
deriving DecidableEq, Repr

/-- The JSON object returned by `solc.compile`: the `errors` field is
either absent (`none`) or a list of diagnostics of any severity, and the
`contracts` field holds the artifact. -/
structure CompilerOutput where
  errors : Option (List Diagnostic)
  artifact : Artifact
deriving DecidableEq, Repr

/-- `compileContract` (src/bot.ts lines 128-141, same shape in
src/deploy.ts lines 106-135): `if (output.errors) { ...; throw new
Error('Compilation failed'); }`, i.e. it throws whenever the `errors`
field is present at all, and otherwise returns the artifact. -/
def compileContract (output : CompilerOutput) : Except String Artifact :=
  match output.errors with
  | some _ => Except.error "Compilation failed"
  | none => Except.ok output.artifact

/-- Modelled from the spec (§6): whether the compiler output contains a
diagnostic flagged as an error. -/
def hasErrorDiag (output : CompilerOutput) : Bool :=
  match output.errors with
  | none => false
  | some l => l.any (fun d => d.severity == Severity.error)

/-- One interaction of `main` with the remote ledger. -/
inductive ChainEvent where
  | submitDeploy (artifact : Artifact) (ctorArgs : List Nat)
  | confirmDeploy (addr : Nat)
  | submitCall (target : Nat) (method : String) (args : List Nat)
  | confirmCall
  | readState (what : String)
deriving DecidableEq, Repr

/-- `ethers.parseUnits("50000", 18)` (src/bot.ts line 187). -/
def liquidityAmountA : Nat := 50000 * 10 ^ 18

/-- `ethers.parseUnits("500", 18)` (src/bot.ts line 188). -/
def liquidityAmountB : Nat := 500 * 10 ^ 18

/-- `ethers.parseUnits("100", 18)` (src/bot.ts line 204). -/
def amountToSwapEachTime : Nat := 100 * 10 ^ 18

/-- `ethers.parseUnits("1000", 18)` (src/bot.ts line 205). -/
def totalAmountToApprove : Nat := 1000 * 10 ^ 18

/-- The deployment-and-setup phase of `main` (src/bot.ts lines 170-210)
as the linear trace of its ledger interactions.  `addrOf n` is the
address the ledger assigns to the n-th deployment; every `await
tx.wait()` / `waitForDeployment()` of the source appears as a confirm
event directly after its submit event, and each later step's arguments
are built from the addresses carried by the earlier confirm events. -/
def deploySequence (erc20Art swapArt : Artifact) (addrOf : Nat → Nat) :
    List ChainEvent :=
  [ChainEvent.submitDeploy erc20Art [100000],
   ChainEvent.confirmDeploy (addrOf 0),
   ChainEvent.submitDeploy erc20Art [10000],
   ChainEvent.confirmDeploy (addrOf 1),
   ChainEvent.submitDeploy swapArt [addrOf 0, addrOf 1],
   ChainEvent.confirmDeploy (addrOf 2),
   ChainEvent.submitCall (addrOf 0) "approve" [addrOf 2, liquidityAmountA],
   ChainEvent.confirmCall,
   ChainEvent.submitCall (addrOf 1) "approve" [addrOf 2, liquidityAmountB],
   ChainEvent.confirmCall,
   ChainEvent.submitCall (addrOf 2) "addLiquidity" [liquidityAmountA, liquidityAmountB],
   ChainEvent.confirmCall,
   ChainEvent.submitCall (addrOf 0) "approve" [addrOf 2, totalAmountToApprove],
   ChainEvent.confirmCall]

/-- Whether an event submits a transaction. -/
def isSubmit : ChainEvent → Bool
  | ChainEvent.submitDeploy _ _ => true
  | ChainEvent.submitCall _ _ _ => true
  | _ => false

/-- Whether an event is a confirmation. -/
def isConfirm : ChainEvent → Bool
  | ChainEvent.confirmDeploy _ => true
  | ChainEvent.confirmCall => true
  | _ => false

/-- `awaitsFrom pending tr` checks that `tr` alternates submit and
confirm events: when `pending` is true a submitted transaction is
awaiting its confirmation, and no new transaction may be submitted
before it arrives; at the end nothing may be left unconfirmed. -/
def awaitsFrom : Bool → List ChainEvent → Bool
  | false, [] => true
  | true, [] => false
  | false, e :: r => isSubmit e && awaitsFrom true r
  | true, e :: r => isConfirm e && awaitsFrom false r

/-- How `main` terminates: `earlyReturn` is the plain `return` taken when
`PRIVATE_KEY` is missing (src/bot.ts line 151), `threw` means an
exception escaped `main` and was caught by `main().catch` (line 235),
`completed` is a full run through the final log line. -/
inductive MainOutcome where
  | earlyReturn
  | threw
  | completed
deriving DecidableEq, Repr

/-- The four events of one swap-loop iteration (src/bot.ts lines
214-226): read the balance, submit the swap, await it, read the balance
again; on failure the confirmation never arrives and the iteration ends
inside the catch block. -/
def swapIterationEvents (swapAddr tokenAAddr : Nat) (ok : Bool) :
    List ChainEvent :=
  if ok then
    [ChainEvent.readState "balanceOf",
     ChainEvent.submitCall swapAddr "swap" [amountToSwapEachTime, tokenAAddr],
     ChainEvent.confirmCall,
     ChainEvent.readState "balanceOf"]
  else
    [ChainEvent.readState "balanceOf",
     ChainEvent.submitCall swapAddr "swap" [amountToSwapEachTime, tokenAAddr]]

/-- The ledger interactions of the whole swap loop: one block of events
per attempted iteration. -/
def swapLoopEvents (addrOf : Nat → Nat) (swapOk : Nat → Bool) :
    List ChainEvent :=
  (((runSwaps swapOk 10).2).map
    (fun i => swapIterationEvents (addrOf 2) (addrOf 0) (swapOk i))).flatten

/-- `main` of src/bot.ts (lines 148-233) as a function of its
environment: the optional `PRIVATE_KEY`, the two compiler outputs, the
ledger's address assignment, and the per-iteration swap outcome.  It
returns the list of ledger interactions together with how `main`
terminates.  With the key missing, `main` logs and returns before any
network activity; a compilation throw escapes after only the balance
read; otherwise the full pipeline runs, and a swap failure is caught
inside the loop, so `main` still completes normally. -/
def mainRun (privateKey : Option String) (erc20Out swapOut : CompilerOutput)
    (addrOf : Nat → Nat) (swapOk : Nat → Bool) :
    List ChainEvent × MainOutcome :=
  match privateKey with
  | none => ([], MainOutcome.earlyReturn)
  | some _ =>
    match compileContract erc20Out with
    | Except.error _ => ([ChainEvent.readState "getBalance"], MainOutcome.threw)
    | Except.ok erc20Art =>
      match compileContract swapOut with
      | Except.error _ => ([ChainEvent.readState "getBalance"], MainOutcome.threw)
      | Except.ok swapArt =>
          (ChainEvent.readState "getBalance" ::
            (deploySequence erc20Art swapArt addrOf ++ swapLoopEvents addrOf swapOk),
           MainOutcome.completed)

/-- The process exit code produced by the `main().catch` handler
(src/bot.ts lines 235-238): 1 when an exception escaped `main`, and the
Node default 0 otherwise. -/
def exitCode : MainOutcome → Nat
  | MainOutcome.threw => 1
  | _ => 0

/-- Whether an event submits a contract deployment. -/
def isSubmitDeploy : ChainEvent → Bool
  | ChainEvent.submitDeploy _ _ => true
  | _ => false

/-- Number of deployment transactions submitted in a trace. -/
def countDeploys (l : List ChainEvent) : Nat :=
  (l.filter isSubmitDeploy).length

/-- Claim C7: in the deployment-and-setup phase, every submitted
transaction is confirmed before the next one is submitted (the trace
alternates submit/confirm and ends confirmed), the pool deployment
(position 4) is submitted with exactly the addresses carried by the two
token-deployment confirmations (positions 1 and 3, both before it), and
`addLiquidity` (position 10) is submitted only after both approval
transactions (positions 6 and 8) are confirmed (positions 7 and 9). -/
theorem C7_deployment_order (erc20Art swapArt : Artifact) (addrOf : Nat → Nat) :
    awaitsFrom false (deploySequence erc20Art swapArt addrOf) = true ∧
    (deploySequence erc20Art swapArt addrOf).get? 1 =
      some (ChainEvent.confirmDeploy (addrOf 0)) ∧
    (deploySequence erc20Art swapArt addrOf).get? 3 =
      some (ChainEvent.confirmDeploy (addrOf 1)) ∧
    (deploySequence erc20Art swapArt addrOf).get? 4 =
      some (ChainEvent.submitDeploy swapArt [addrOf 0, addrOf 1]) ∧
    (deploySequence erc20Art swapArt addrOf).get? 6 =
      some (ChainEvent.submitCall (addrOf 0) "approve" [addrOf 2, liquidityAmountA]) ∧
    (deploySequence erc20Art swapArt addrOf).get? 7 = some ChainEvent.confirmCall ∧
    (deploySequence erc20Art swapArt addrOf).get? 8 =
      some (ChainEvent.submitCall (addrOf 1) "approve" [addrOf 2, liquidityAmountB]) ∧
    (deploySequence erc20Art swapArt addrOf).get? 9 = some ChainEvent.confirmCall ∧
    (deploySequence erc20Art swapArt addrOf).get? 10 =
      some (ChainEvent.submitCall (addrOf 2) "addLiquidity"
        [liquidityAmountA, liquidityAmountB]) :=
  ⟨rfl, rfl, rfl, rfl, rfl, rfl, rfl, rfl, rfl⟩

/-- Claim C5 at its failing input (the bug): with `PRIVATE_KEY` absent,
`main` performs no ledger interaction (the claim's first half holds) but
returns normally, so the process exit code is 0, not non-zero as the
claim requires. -/
theorem C5_missing_credential (erc20Out swapOut : CompilerOutput)
    (addrOf : Nat → Nat) (swapOk : Nat → Bool) :
    (mainRun none erc20Out swapOut addrOf swapOk).1 = [] ∧
    (mainRun none erc20Out swapOut addrOf swapOk).2 = MainOutcome.earlyReturn ∧
    exitCode (mainRun none erc20Out swapOut addrOf swapOk).2 = 0 :=
  ⟨rfl, rfl, rfl⟩

/-- Concrete compiler outputs: a clean one, one carrying an error
diagnostic, and one carrying only a warning diagnostic. -/
def cleanOutput : CompilerOutput :=
  { errors := none, artifact := { abi := 1, bytecode := 2 } }

/-- Compiler output whose `errors` array holds one error diagnostic. -/
def errorOutput : CompilerOutput :=
  { errors := some [{ severity := Severity.error, formattedMessage := "boom" }],
    artifact := { abi := 1, bytecode := 2 } }

/-- Compiler output whose `errors` array holds only a warning. -/
def warningOutput : CompilerOutput :=
  { errors := some [{ severity := Severity.warning, formattedMessage := "unused var" }],
    artifact := { abi := 1, bytecode := 2 } }

/-- Counterexample to claim C8 as stated: `compileContract` does not
abort exactly when a diagnostic is flagged as an error — on an output
whose `errors` array holds only a warning it throws all the same. -/
theorem C8_counterexample :
    hasErrorDiag warningOutput = false ∧
    compileContract warningOutput = Except.error "Compilation failed" :=
  ⟨rfl, rfl⟩

/-- Claim C8 (amended): `compileContract` fails exactly when the
compiler output carries an `errors` field at all (warnings included);
in particular, whenever some diagnostic is flagged as an error,
`compileContract` throws and the run submits no deployment transaction,
whichever of the two compilations it is. -/
theorem C8_compile_gate (o o2 : CompilerOutput) (key : String)
    (addrOf : Nat → Nat) (swapOk : Nat → Bool) :
    ((∃ a, compileContract o = Except.ok a) ↔ o.errors = none) ∧
    (hasErrorDiag o = true →
      compileContract o = Except.error "Compilation failed") ∧
    (hasErrorDiag o = true →
      countDeploys (mainRun (some key) o o2 addrOf swapOk).1 = 0) ∧
    (hasErrorDiag o = true →
      countDeploys (mainRun (some key) o2 o addrOf swapOk).1 = 0) := by
  have herr : hasErrorDiag o = true →
      compileContract o = Except.error "Compilation failed" := by
    intro h
    unfold hasErrorDiag at h
    unfold compileContract
    cases ho : o.errors with
    | none => rw [ho] at h; exact Bool.noConfusion h
    | some l => rfl
  refine ⟨?_, herr, ?_, ?_⟩
  · constructor
    · rintro ⟨a, ha⟩
      unfold compileContract at ha
      cases ho : o.errors with
      | none => rfl
      | some l => rw [ho] at ha; exact Except.noConfusion ha
    · intro ho
      refine ⟨o.artifact, ?_⟩
      unfold compileContract
      rw [ho]
  · intro h
    unfold mainRun
    rw [herr h]
    rfl
  · intro h
    unfold mainRun
    cases hco2 : compileContract o2 with
    | error e => rfl
    | ok a =>
      rw [herr h]
      rfl

/-- Witness for C8 (amended), evaluated on `errorOutput` (an
error-flagged diagnostic) and `cleanOutput`: compilation throws and the
run submits zero deployments whichever compilation position fails. -/
theorem C8_witness :
    ((∃ a, compileContract errorOutput = Except.ok a) ↔ errorOutput.errors = none) ∧
    compileContract errorOutput = Except.error "Compilation failed" ∧
    countDeploys
      (mainRun (some "k") errorOutput cleanOutput (fun _ => 0) (fun _ => true)).1 = 0 ∧
    countDeploys
      (mainRun (some "k") cleanOutput errorOutput (fun _ => 0) (fun _ => true)).1 = 0 := by
  have h := C8_compile_gate errorOutput cleanOutput "k" (fun _ => 0) (fun _ => true)
  exact ⟨h.1, h.2.1 rfl, h.2.2.1 rfl, h.2.2.2 rfl⟩
